import Mathlib

/-!
Verification development for the mental-health chatbot workflow
(`src/nodes.py`, `src/helperfunctions.py`, `src/tools.py`).

The repository is a sequential phase controller around external services
(LLM calls, vector retrieval, Supabase persistence).  The embedding below
models the persisted rows and the pure control logic of each phase
function.  External services are out of scope of the embedding:
LLM text generation, vector retrieval, datetime parsing (dateutil) and
the database transport are inputs or are elided, exactly as the spec
declares them external collaborators.
-/

set_option maxRecDepth 10000

/-! ## String helpers (Python `in` substring test) -/

/-- Decides whether `p` is an initial segment of `l` (helper for `containsSub`). -/
def leadsWith : List Char → List Char → Bool
  | [], _ => true
  | _ :: _, [] => false
  | p :: ps, h :: hs => p == h && leadsWith ps hs

/-- Python `pat in hay` substring containment on character lists. -/
def containsSub : List Char → List Char → Bool
  | [], pat => pat.isEmpty
  | h :: t, pat => leadsWith pat (h :: t) || containsSub t pat

/-- Python `needle in hay` on strings. -/
def strIn (needle hay : String) : Bool := containsSub hay.data needle.data

/-- Python `s.lower()` (ASCII case mapping, as used by the code). -/
def pyLower (s : String) : String := ⟨s.data.map Char.toLower⟩

/-- Python `s.upper()` (ASCII case mapping, as used by the code). -/
def pyUpper (s : String) : String := ⟨s.data.map Char.toUpper⟩

/-- Python `s.strip()`: drop leading and trailing whitespace. -/
def pyStrip (s : String) : String :=
  ⟨((s.data.dropWhile Char.isWhitespace).reverse.dropWhile Char.isWhitespace).reverse⟩

/-! ## Answer scoring (`score_user_answer`, src/nodes.py)

`score_user_answer` lowercases and strips the answer, then tries keyword
matching against five canonical buckets in order of base score 0..4; the
first bucket with any keyword occurring as a substring of the answer wins.
Items 7..10 are reverse scored (`4 - matched`).  When no keyword matches,
the function falls back to a structured LLM call (external service),
modelled here as the `none` result. -/

/-- The `keyword_patterns` dict of `score_user_answer`, in iteration order. -/
def keyword_patterns : List (Nat × List String) :=
  [ (0, ["never", "not at all", "no"]),
    (1, ["almost never", "rarely", "seldom", "hardly"]),
    (2, ["sometimes", "occasionally", "once in a while"]),
    (3, ["fairly often", "often", "frequently", "regularly"]),
    (4, ["very often", "always", "constantly", "all the time"]) ]

/-- First bucket (in order 0,1,2,3,4) with a keyword contained in the answer. -/
def matchedScore (answer : String) : Option Nat :=
  keyword_patterns.findSome? fun p =>
    if p.2.any (fun kw => strIn kw answer) then some p.1 else none

/-- Keyword path of `score_user_answer` for question number `questionNum`
(`int(question_id[3:])`): lowercase and strip the raw answer, match, and
apply reverse scoring for question numbers `>= 7`.  `none` means the code
would fall through to the LLM scorer (external). -/
def score_user_answer (questionNum : Nat) (rawAnswer : String) : Option Nat :=
  let answer := pyStrip (pyLower rawAnswer)
  match matchedScore answer with
  | some b => some (if 7 ≤ questionNum then 4 - b else b)
  | none => none

/-! ## Severity routing (`determine_route`, src/nodes.py and
`SEVERITY_ROUTING`, src/helperfunctions.py) -/

/-- The fixed routing table `SEVERITY_ROUTING` of src/helperfunctions.py. -/
def SEVERITY_ROUTING : List (String × String) :=
  [ ("minimal depression", "treatment_plan"),
    ("mild depression", "treatment_plan"),
    ("minimal anxiety", "treatment_plan"),
    ("low stress", "treatment_plan"),
    ("moderate depression", "treatment_plan"),
    ("mild anxiety", "treatment_plan"),
    ("moderate stress", "treatment_plan"),
    ("moderately severe depression", "appointment"),
    ("moderate anxiety", "appointment"),
    ("high stress", "appointment"),
    ("severe depression", "appointment"),
    ("moderate to severe anxiety", "appointment") ]

/-- `determine_route`: lowercases the severity from the state and looks it
up in `SEVERITY_ROUTING`, defaulting to `treatment_plan`. -/
def determine_route (severity : String) : String :=
  (SEVERITY_ROUTING.lookup (pyLower severity)).getD "treatment_plan"

/-! ## Claims C3 and C4 -/

/-- Claim C3, counterexample: the claim asserts six severities route to
`treatment_plan` and six to `appointment`, but the fixed table has seven
`treatment_plan` entries and five `appointment` entries.  Moreover the
string "High Stress" is not a key of the table yet routes to
`appointment` (lookup happens after lowercasing), against the claimed
default for strings not in the table. -/
theorem severity_routing_not_six_six :
    (SEVERITY_ROUTING.filter (fun p => decide (p.2 = "treatment_plan"))).length = 7 ∧
    (SEVERITY_ROUTING.filter (fun p => decide (p.2 = "appointment"))).length = 5 ∧
    SEVERITY_ROUTING.length = 12 ∧
    ¬ (SEVERITY_ROUTING.filter (fun p => decide (p.2 = "treatment_plan"))).length = 6 ∧
    determine_route "High Stress" = "appointment" ∧
    SEVERITY_ROUTING.all (fun p => !(decide (p.1 = "High Stress"))) = true := by
  decide

/-- Claim C3 (amended): `determine_route` is a static lookup after
lowercasing: every entry of the fixed table is returned exactly; every
severity whose lowercased form is not a key returns the self-care route
`treatment_plan`; seven severity levels route to `treatment_plan` and
five route to `appointment`. -/
theorem determine_route_static_lookup :
    (∀ p ∈ SEVERITY_ROUTING, determine_route p.1 = p.2) ∧
    (∀ s : String, SEVERITY_ROUTING.lookup (pyLower s) = none →
      determine_route s = "treatment_plan") ∧
    (SEVERITY_ROUTING.filter (fun p => decide (p.2 = "treatment_plan"))).length = 7 ∧
    (SEVERITY_ROUTING.filter (fun p => decide (p.2 = "appointment"))).length = 5 := by
  refine ⟨by decide, ?_, by decide, by decide⟩
  intro s h
  unfold determine_route
  rw [h]
  rfl

/-- Claim C3, witness: the mapped severity "high stress" routes to
`appointment`, and an unmapped severity routes to `treatment_plan`. -/
theorem determine_route_static_lookup_witness :
    determine_route "high stress" = "appointment" ∧
    determine_route "unknown level" = "treatment_plan" :=
  ⟨determine_route_static_lookup.1 ("high stress", "appointment") (by decide),
   determine_route_static_lookup.2.1 "unknown level" (by decide)⟩

/-- Claim C4: evaluation of the code at its failing inputs.  The canonical
keyword "very often" carries base score 4 and "almost never" base score 1
in the buckets, but the matching loop tests buckets in order 0..4 with a
substring test, so the exact-keyword answer "very often" hits the
substring "often" of bucket 3 first and the exact-keyword answer
"almost never" hits the substring "never" of bucket 0 first; item 1
(direct) scores "very often" as 3 instead of the mapped 4, and item 10
(reverse) scores it as 4 - 3 = 1 instead of 4 - 4 = 0. -/
theorem score_user_answer_substring_flaw :
    matchedScore "very often" = some 3 ∧
    matchedScore "almost never" = some 0 ∧
    keyword_patterns.any
      (fun p => decide (p.1 = 4) && p.2.contains "very often") = true ∧
    keyword_patterns.any
      (fun p => decide (p.1 = 1) && p.2.contains "almost never") = true ∧
    score_user_answer 1 "very often" = some 3 ∧
    score_user_answer 1 "very often" ≠ some 4 ∧
    score_user_answer 10 "very often" = some 1 ∧
    score_user_answer 1 "almost never" = some 0 := by
  decide

/-! ## Questionnaire rows (`student_questionnaire_results` table)

One row per insert, keyed by `student_id` plus a timestamp, with the
discriminator column `type`, ten nullable slots `pss1`..`pss10` and the
result columns.  Timestamps are modelled as naturals (the code only
orders by them). -/

structure QRecord where
  student_id : String
  timestamp : Nat
  /-- The `type` column (questionnaire discriminator). -/
  qtype : String
  /-- The nullable columns `pss1`..`pss10`, index `i-1` holding `pssi`. -/
  slots : List (Option Nat)
  pss_total_score : Option Nat
  pss_score_label : Option String
  phq_score_label : Option String
  gad_score_label : Option String
  deriving DecidableEq, Repr

/-- Python `record.get('pss<i>')` for the 1-based item number `i`
(`None` when the key is absent or null). -/
def QRecord.slot (r : QRecord) (i : Nat) : Option Nat :=
  r.slots.getD (i - 1) none

/-- The fresh row inserted by `create_questionnaire`: type `pss`, all ten
slots null. -/
def blankRecord (student_id : String) (now : Nat) : QRecord :=
  { student_id := student_id
    timestamp := now
    qtype := "pss"
    slots := List.replicate 10 none
    pss_total_score := none
    pss_score_label := none
    phq_score_label := none
    gad_score_label := none }

/-- The `type_mapping` dict of `classify_disorder` (src/nodes.py): the row
type it inserts for each conversation-classified condition. -/
def classifyTypeMapping : List (String × String) :=
  [("anxiety", "GAD"), ("depression", "PHQ"), ("stress", "GAD")]

/-! ### First-match scan

Both `create_questionnaire` and `save_answer_score` run a `for i in
range(1, 11)` loop that records the first index satisfying a condition;
`scanAux` is that loop, and the two lemmas characterise its result. -/

/-- First element of `L` (scanned left to right) satisfying `p`. -/
def scanAux (p : Nat → Bool) : List Nat → Option Nat
  | [] => none
  | i :: rest => if p i then some i else scanAux p rest

lemma scanAux_eq_none_iff (p : Nat → Bool) (L : List Nat) :
    scanAux p L = none ↔ ∀ i ∈ L, p i = false := by
  induction L with
  | nil => simp [scanAux]
  | cons a t ih =>
    cases hp : p a with
    | true => simp [scanAux, hp]
    | false => simp [scanAux, hp, ih]

lemma scanAux_eq_some_iff (p : Nat → Bool) (L : List Nat) (k : Nat)
    (hL : L.Pairwise (· < ·)) :
    scanAux p L = some k ↔
      k ∈ L ∧ p k = true ∧ ∀ j ∈ L, j < k → p j = false := by
  induction L with
  | nil => simp [scanAux]
  | cons a t ih =>
    obtain ⟨ha, ht⟩ := List.pairwise_cons.mp hL
    cases hp : p a with
    | true =>
      simp only [scanAux, hp, if_pos rfl]
      constructor
      · rintro h
        obtain rfl : a = k := by simpa using h
        refine ⟨List.mem_cons_self a t, hp, ?_⟩
        intro j hj hjk
        rcases List.mem_cons.mp hj with rfl | hmem
        · exact absurd hjk (lt_irrefl j)
        · exact absurd (ha j hmem) (not_lt_of_gt hjk)
      · rintro ⟨hk, hpk, hmin⟩
        rcases List.mem_cons.mp hk with rfl | hmem
        · rfl
        · have := hmin a (List.mem_cons_self a t) (ha k hmem)
          rw [this] at hp
          cases hp
    | false =>
      simp only [scanAux, hp]
      rw [if_neg (by simp)]
      rw [ih ht]
      constructor
      · rintro ⟨hk, hpk, hmin⟩
        refine ⟨List.mem_cons_of_mem a hk, hpk, ?_⟩
        intro j hj hjk
        rcases List.mem_cons.mp hj with rfl | hmem
        · exact hp
        · exact hmin j hmem hjk
      · rintro ⟨hk, hpk, hmin⟩
        rcases List.mem_cons.mp hk with rfl | hmem
        · rw [hpk] at hp; cases hp
        · exact ⟨hmem, hpk, fun j hj hjk => hmin j (List.mem_cons_of_mem a hj) hjk⟩

/-- The loop range `range(1, 11)` of the questionnaire scans. -/
def itemRange : List Nat := List.range' 1 10

lemma itemRange_eq : itemRange = [1, 2, 3, 4, 5, 6, 7, 8, 9, 10] := rfl

lemma mem_itemRange (i : Nat) : i ∈ itemRange ↔ 1 ≤ i ∧ i ≤ 10 := by
  rw [itemRange_eq]
  constructor
  · intro h; fin_cases h <;> omega
  · rintro ⟨h1, h2⟩; interval_cases i <;> simp

lemma itemRange_pairwise : itemRange.Pairwise (· < ·) := by
  rw [itemRange_eq]; decide

/-! ## `create_questionnaire` (src/nodes.py)

The rewording of the ten fixed questions is an LLM call (external); the
emitted chat message quotes `reword_questionnaire[current_question_id]`,
so emitting an item is modelled by the `current_question_id` field
together with `next_node`.  The function selects the rows of the student,
inserts a blank row when none exists, and otherwise scans `pss1`..`pss10`
for the first null slot. -/

structure CreateResult where
  current_question_id : Option String
  next_node : String
  deriving DecidableEq, Repr

/-- The `for i in range(1, 11)` scan of `create_questionnaire`: first item
whose slot is null (key absent or None). -/
def firstUnanswered (r : QRecord) : Option Nat :=
  scanAux (fun i => decide (r.slot i = none)) itemRange

/-- `create_questionnaire`: `prev_question_id` is the state field on
entry (the no-write branches leave it untouched); `now` is the external
clock value used for the inserted timestamp. -/
def create_questionnaire (db : List QRecord) (student_id : String) (now : Nat)
    (prev_question_id : Option String) : List QRecord × CreateResult :=
  let rows := db.filter (fun r => decide (r.student_id = student_id))
  match rows.head? with
  | none =>
      (db ++ [blankRecord student_id now], ⟨some "pss1", "ask_question"⟩)
  | some record =>
      match firstUnanswered record with
      | none => (db, ⟨prev_question_id, "total_score_label"⟩)
      | some k => (db, ⟨some ("pss" ++ toString k), "ask_question"⟩)

/-! ## `save_answer_score` (src/nodes.py) -/

structure SaveResult where
  current_question_id : Option String
  next_node : String
  deriving DecidableEq, Repr

/-- Python `int(question_id[3:])` on the well-formed ids `"pss1"`..`"pss10"`
(a malformed id raises and is caught by the error path, not modelled). -/
def qnum (question_id : String) : Nat :=
  let digits := question_id.data.drop 3
  if digits ≠ [] ∧ digits.all Char.isDigit then
    digits.foldl (fun n c => n * 10 + (c.toNat - '0'.toNat)) 0
  else 0

/-- The Supabase `update({question_id: score})`: set the slot named by
`question_id`, leaving every other key unchanged. -/
def setSlot (r : QRecord) (question_id : String) (score : Nat) : QRecord :=
  { r with slots := itemRange.map (fun i =>
      if question_id = "pss" ++ toString i then some score else r.slot i) }

/-- The `for i in range(1, 11)` rescan of `save_answer_score`: first item
whose slot is null and whose number exceeds the current question number. -/
def nextUnanswered (r : QRecord) (current_num : Nat) : Option Nat :=
  scanAux (fun i => decide (r.slot i = none) && decide (current_num < i)) itemRange

/-- `save_answer_score`: writes the scored slot to every row of the
student, re-reads the first row, and rescans for the next null slot after
the current question.  The acknowledgment text inside the emitted message
is randomly chosen (external), so emission is modelled by
`current_question_id` and `next_node`. -/
def save_answer_score (db : List QRecord) (student_id question_id : String)
    (score : Nat) (prev_question_id : Option String) : List QRecord × SaveResult :=
  let db1 := db.map (fun r =>
    if r.student_id = student_id then setSlot r question_id score else r)
  let rows := db1.filter (fun r => decide (r.student_id = student_id))
  match rows.head? with
  | none => (db1, ⟨prev_question_id, "end"⟩)
  | some record =>
      match nextUnanswered record (qnum question_id) with
      | some k => (db1, ⟨some ("pss" ++ toString k), "ask_question"⟩)
      | none => (db1, ⟨none, "total_score_label"⟩)

/-! ## `total_score_label` (src/nodes.py) -/

structure TotalResult where
  total_score : Nat
  score_label : String
  severity : String
  next_node : String
  deriving DecidableEq, Repr

/-- `total_score_label`: re-reads the student rows, collects the non-null
`pss<digit>` slots of the first row when its `type` is `"pss"`
case-insensitively, sums them, buckets the total (the code guards
`0 <= total`, trivially true here), and persists total and label on the
student rows. -/
def total_score_label_run (db : List QRecord) (student_id : String) :
    List QRecord × TotalResult :=
  let rows := db.filter (fun r => decide (r.student_id = student_id))
  let scores : List Nat :=
    match rows.head? with
    | some r => if pyLower r.qtype = "pss" then r.slots.filterMap id else []
    | none => []
  let total := scores.sum
  let label := if total ≤ 13 then "Low stress"
    else if total ≤ 26 then "Moderate stress" else "High stress"
  let severity := if total ≤ 13 then "low stress"
    else if total ≤ 26 then "moderate stress" else "high stress"
  let db1 := db.map (fun r =>
    if r.student_id = student_id then
      { r with pss_total_score := some total, pss_score_label := some label }
    else r)
  (db1, ⟨total, label, severity, "transition_to_recommendations"⟩)

/-! ## Demonstration rows for witnesses and counterexamples -/

/-- A persisted row with items 1..3 answered and 4..10 null. -/
def c1row : QRecord :=
  { student_id := "s1", timestamp := 0, qtype := "pss"
    slots := [some 1, some 2, some 0, none, none, none, none, none, none, none]
    pss_total_score := none, pss_score_label := none
    phq_score_label := none, gad_score_label := none }

/-- A fully answered persisted row. -/
def c1fullrow : QRecord :=
  { student_id := "s1", timestamp := 0, qtype := "pss"
    slots := List.replicate 10 (some 2)
    pss_total_score := none, pss_score_label := none
    phq_score_label := none, gad_score_label := none }

/-- A row where a partial earlier failure left `pss1` null while
`pss2`..`pss9` are answered and `pss10` is about to be answered. -/
def c2row : QRecord :=
  { student_id := "s1", timestamp := 0, qtype := "pss"
    slots := [none, some 1, some 1, some 1, some 1, some 1, some 1, some 1, some 1, none]
    pss_total_score := none, pss_score_label := none
    phq_score_label := none, gad_score_label := none }

/-- A row of type `GAD`, as inserted by `classify_disorder`. -/
def c9row : QRecord :=
  { student_id := "s1", timestamp := 0, qtype := "GAD"
    slots := List.replicate 10 none
    pss_total_score := none, pss_score_label := none
    phq_score_label := none, gad_score_label := none }

/-! ## Claim C1 -/

/-- Claim C1: `create_questionnaire` is an idempotent, restart-safe
entry point.  With no persisted row for the student it inserts one with
all ten slots null and emits item 1 (continuing at `ask_question`); with
an existing row it writes nothing, and either resumes at the first null
slot (continuing at `ask_question`) or, when every slot is non-null,
routes to `total_score_label` without re-asking any item. -/
theorem create_questionnaire_restart_safe (db : List QRecord) (sid : String)
    (now : Nat) (prev : Option String) :
    (db.filter (fun r => decide (r.student_id = sid)) = [] →
      (create_questionnaire db sid now prev).1 = db ++ [blankRecord sid now] ∧
      (blankRecord sid now).slots = List.replicate 10 none ∧
      (create_questionnaire db sid now prev).2 =
        ⟨some "pss1", "ask_question"⟩) ∧
    (∀ record,
      (db.filter (fun r => decide (r.student_id = sid))).head? = some record →
      (create_questionnaire db sid now prev).1 = db ∧
      ((∀ i, 1 ≤ i → i ≤ 10 → record.slot i ≠ none) →
        (create_questionnaire db sid now prev).2 =
          ⟨prev, "total_score_label"⟩) ∧
      (∀ k, 1 ≤ k → k ≤ 10 → record.slot k = none →
        (∀ j, 1 ≤ j → j < k → record.slot j ≠ none) →
        (create_questionnaire db sid now prev).2 =
          ⟨some ("pss" ++ toString k), "ask_question"⟩)) := by
  constructor
  · intro h
    refine ⟨?_, rfl, ?_⟩ <;> simp [create_questionnaire, h]
  · intro record hrec
    refine ⟨?_, ?_, ?_⟩
    · cases hfu : firstUnanswered record <;>
        simp [create_questionnaire, hrec, hfu]
    · intro hall
      have hnone : firstUnanswered record = none := by
        apply (scanAux_eq_none_iff _ _).mpr
        intro i hi
        obtain ⟨h1, h2⟩ := (mem_itemRange i).mp hi
        simpa using hall i h1 h2
      simp [create_questionnaire, hrec, hnone]
    · intro k hk1 hk10 hknull hmin
      have hsome : firstUnanswered record = some k := by
        apply (scanAux_eq_some_iff _ _ _ itemRange_pairwise).mpr
        refine ⟨(mem_itemRange k).mpr ⟨hk1, hk10⟩, by simpa using hknull, ?_⟩
        intro j hj hjk
        obtain ⟨hj1, hj10⟩ := (mem_itemRange j).mp hj
        simpa using hmin j hj1 hjk
      simp [create_questionnaire, hrec, hsome]

/-- Claim C1, witness: against a row with items 1..3 answered the
initializer resumes at item 4 exactly; against a fully answered row it
routes to total-score calculation; with no row it emits item 1. -/
theorem create_questionnaire_restart_safe_witness :
    (create_questionnaire [c1row] "s1" 5 none).2 =
      ⟨some "pss4", "ask_question"⟩ ∧
    (create_questionnaire [c1fullrow] "s1" 5 none).2 =
      ⟨none, "total_score_label"⟩ ∧
    (create_questionnaire [] "s1" 5 none).2 = ⟨some "pss1", "ask_question"⟩ := by
  refine ⟨?_, ?_, ?_⟩
  · exact (create_questionnaire_restart_safe [c1row] "s1" 5 none).2 c1row
      (by decide) |>.2.2 4 (by decide) (by decide) (by decide)
      (by intro j h1 h2; interval_cases j <;> decide)
  · exact (create_questionnaire_restart_safe [c1fullrow] "s1" 5 none).2 c1fullrow
      (by decide) |>.2.1
      (by intro i h1 h2; interval_cases i <;> decide)
  · exact (create_questionnaire_restart_safe [] "s1" 5 none).1 (by decide) |>.2.2

/-! ## Claim C2 -/

/-- Claim C2, counterexample: `save_answer_score` does not detect a
lower-numbered null slot.  With `pss1` null and `pss10` being saved, the
rescan (which only considers items after the current question) finds
nothing and the function proceeds to `total_score_label` although the
persisted row still has a null slot, where the claim requires looping to
`ask_question`. -/
theorem save_answer_score_skips_earlier_null :
    (save_answer_score [c2row] "s1" "pss10" 3 (some "pss10")).2.next_node =
      "total_score_label" ∧
    ((save_answer_score [c2row] "s1" "pss10" 3 (some "pss10")).1.head?.map
      (fun r => r.slot 1)) = some none ∧
    (save_answer_score [c2row] "s1" "pss10" 3 (some "pss10")).2.next_node ≠
      "ask_question" := by
  decide

/-- Claim C2 (amended): `save_answer_score` writes the scored slot and
determines completeness by a linear scan over the 10 fixed slot keys
restricted to items strictly after the current question: if such an item
is null it advances `current_question_id` to the first one and loops to
`ask_question`; it proceeds to total-score calculation exactly when all
slots after the current question are non-null, even if a partial earlier
failure left a lower-numbered slot null. -/
theorem save_answer_score_forward_scan (db : List QRecord)
    (sid question_id : String) (score : Nat) (prev : Option String)
    (record : QRecord)
    (hrec : ((db.map (fun r =>
        if r.student_id = sid then setSlot r question_id score else r)).filter
        (fun r => decide (r.student_id = sid))).head? = some record) :
    (save_answer_score db sid question_id score prev).1 =
      db.map (fun r =>
        if r.student_id = sid then setSlot r question_id score else r) ∧
    ((∀ i, 1 ≤ i → i ≤ 10 → qnum question_id < i → record.slot i ≠ none) →
      (save_answer_score db sid question_id score prev).2 =
        ⟨none, "total_score_label"⟩) ∧
    (∀ k, 1 ≤ k → k ≤ 10 → qnum question_id < k → record.slot k = none →
      (∀ j, qnum question_id < j → j < k → record.slot j ≠ none) →
      (save_answer_score db sid question_id score prev).2 =
        ⟨some ("pss" ++ toString k), "ask_question"⟩) := by
  refine ⟨?_, ?_, ?_⟩
  · cases hnu : nextUnanswered record (qnum question_id) <;>
      simp [save_answer_score, hrec, hnu]
  · intro hall
    have hnone : nextUnanswered record (qnum question_id) = none := by
      apply (scanAux_eq_none_iff _ _).mpr
      intro i hi
      obtain ⟨h1, h2⟩ := (mem_itemRange i).mp hi
      by_cases hcn : qnum question_id < i
      · simp [hall i h1 h2 hcn]
      · simp [hcn]
    simp [save_answer_score, hrec, hnone]
  · intro k hk1 hk10 hcn hknull hmin
    have hsome : nextUnanswered record (qnum question_id) = some k := by
      apply (scanAux_eq_some_iff _ _ _ itemRange_pairwise).mpr
      refine ⟨(mem_itemRange k).mpr ⟨hk1, hk10⟩, by simp [hknull, hcn], ?_⟩
      intro j hj hjk
      by_cases hcnj : qnum question_id < j
      · simp [hmin j hcnj hjk]
      · simp [hcnj]
    simp [save_answer_score, hrec, hsome]

/-- Claim C2, witness: saving item 3 against a row with items 1..3
answered advances to item 4 and loops to `ask_question`. -/
theorem save_answer_score_forward_scan_witness :
    (save_answer_score [c1row] "s1" "pss3" 0 none).2 =
      ⟨some "pss4", "ask_question"⟩ := by
  exact (save_answer_score_forward_scan [c1row] "s1" "pss3" 0 none
      (setSlot c1row "pss3" 0) (by decide)).2.2 4
    (by decide) (by decide) (by decide) (by decide)
    (by intro j h1 h2
        rw [show qnum "pss3" = 3 from by decide] at h1
        omega)

/-! ## Claims C5 and C9 -/

lemma filterMap_id_map_some (l : List Nat) : (l.map some).filterMap id = l := by
  induction l with
  | nil => rfl
  | cons a t ih => simp [ih]

/-- Claim C5: on a fully answered `pss` row, `total_score_label` re-reads
the ten persisted slots, sums them, buckets the total with thresholds
0..13 low, 14..26 moderate, 27..40 high, and persists total and label on
the student rows. -/
theorem total_score_label_buckets (db : List QRecord) (sid : String)
    (record : QRecord) (vals : List Nat)
    (hrec : (db.filter (fun r => decide (r.student_id = sid))).head? = some record)
    (htype : pyLower record.qtype = "pss")
    (_hlen : vals.length = 10)
    (hslots : record.slots = vals.map some) :
    (total_score_label_run db sid).2.total_score = vals.sum ∧
    (vals.sum ≤ 13 →
      (total_score_label_run db sid).2.score_label = "Low stress" ∧
      (total_score_label_run db sid).2.severity = "low stress") ∧
    (14 ≤ vals.sum → vals.sum ≤ 26 →
      (total_score_label_run db sid).2.score_label = "Moderate stress" ∧
      (total_score_label_run db sid).2.severity = "moderate stress") ∧
    (27 ≤ vals.sum → vals.sum ≤ 40 →
      (total_score_label_run db sid).2.score_label = "High stress" ∧
      (total_score_label_run db sid).2.severity = "high stress") ∧
    (∀ r ∈ (total_score_label_run db sid).1, r.student_id = sid →
      r.pss_total_score = some vals.sum ∧
      r.pss_score_label = some ((total_score_label_run db sid).2.score_label)) := by
  have hsum : (record.slots.filterMap id).sum = vals.sum := by
    rw [hslots, filterMap_id_map_some]
  refine ⟨?_, ?_, ?_, ?_, ?_⟩
  · simp [total_score_label_run, hrec, htype, hsum]
  · intro h
    constructor <;> simp [total_score_label_run, hrec, htype, hsum, h]
  · intro h14 h26
    have h13 : ¬ vals.sum ≤ 13 := by omega
    constructor <;> simp [total_score_label_run, hrec, htype, hsum, h13, h26]
  · intro h27 h40
    have h13 : ¬ vals.sum ≤ 13 := by omega
    have h26 : ¬ vals.sum ≤ 26 := by omega
    constructor <;> simp [total_score_label_run, hrec, htype, hsum, h13, h26]
  · intro r hr hrsid
    have hlab : (total_score_label_run db sid).2.score_label =
        (if vals.sum ≤ 13 then "Low stress"
          else if vals.sum ≤ 26 then "Moderate stress" else "High stress") := by
      simp [total_score_label_run, hrec, htype, hsum]
    simp only [total_score_label_run, hrec, htype, if_pos rfl] at hr
    obtain ⟨r0, hr0, rfl⟩ := List.mem_map.mp hr
    by_cases hcase : r0.student_id = sid
    · rw [if_pos hcase] at hrsid ⊢
      constructor
      · simp [hsum]
      · rw [hlab]
        simp [hsum]
    · rw [if_neg hcase] at hrsid ⊢
      exact absurd hrsid hcase

/-- Claim C5, witness: a fully answered row of ten 2-scores totals 20 and
is labelled moderate stress. -/
theorem total_score_label_buckets_witness :
    (total_score_label_run [c1fullrow] "s1").2.total_score = 20 ∧
    (total_score_label_run [c1fullrow] "s1").2.score_label = "Moderate stress" ∧
    (total_score_label_run [c1fullrow] "s1").2.severity = "moderate stress" := by
  have h := total_score_label_buckets [c1fullrow] "s1" c1fullrow
    (List.replicate 10 2) (by decide) (by decide) (by decide) (by decide)
  have hsum : (List.replicate 10 2).sum = 20 := by decide
  obtain ⟨h1, _, h3, _, _⟩ := h
  rw [hsum] at h1 h3
  exact ⟨h1, (h3 (by omega) (by omega)).1, (h3 (by omega) (by omega)).2⟩

/-- Claim C9: `total_score_label` counts slots only when the first
persisted row for the student has `type` equal to `pss` case-insensitively
and only for non-null slots; for any other type (including the `GAD` and
`PHQ` types that `classify_disorder` inserts) it still succeeds with
total 0 and the low-stress label, and for a partial `pss` row it sums the
non-null slots only. -/
theorem total_score_label_type_gate :
    (∀ (db : List QRecord) (sid : String) (record : QRecord),
      (db.filter (fun r => decide (r.student_id = sid))).head? = some record →
      ((pyLower record.qtype ≠ "pss" →
        (total_score_label_run db sid).2.total_score = 0 ∧
        (total_score_label_run db sid).2.score_label = "Low stress") ∧
      (pyLower record.qtype = "pss" →
        (total_score_label_run db sid).2.total_score =
          (record.slots.filterMap id).sum))) ∧
    (∀ p ∈ classifyTypeMapping, pyLower p.2 ≠ "pss") := by
  constructor
  · intro db sid record hrec
    constructor
    · intro htype
      constructor <;> simp [total_score_label_run, hrec, htype]
    · intro htype
      simp [total_score_label_run, hrec, htype]
  · decide

/-- Claim C9, witness: a `GAD`-typed row (as inserted by
`classify_disorder`) yields total 0 and the low-stress label. -/
theorem total_score_label_type_gate_witness :
    (total_score_label_run [c9row] "s1").2.total_score = 0 ∧
    (total_score_label_run [c9row] "s1").2.score_label = "Low stress" :=
  (total_score_label_type_gate.1 [c9row] "s1" c9row (by decide)).1 (by decide)

/-! ## Recommendation resolution (`transition_to_recommendations`,
src/nodes.py and `get_student_assessment_from_db`,
src/helperfunctions.py) -/

/-- The row picked by `.order("timestamp", desc=True).limit(1)`: the
record with the maximal timestamp among the student rows. -/
def latestRecord (rows : List QRecord) : Option QRecord :=
  rows.foldl (fun acc r =>
    match acc with
    | none => some r
    | some best => if best.timestamp < r.timestamp then some r else some best) none

/-- `get_student_assessment_from_db`: latest persisted row for the
student mapped through the questionnaire-type table; missing rows,
unmapped types and null labels all fall back to
`("stress", "moderate stress")` (the `supabase is None` and exception
guards concern the external service and are elided). -/
def get_student_assessment_from_db (db : List QRecord) (student_id : String) :
    String × String :=
  let rows := db.filter (fun r => decide (r.student_id = student_id))
  match latestRecord rows with
  | none => ("stress", "moderate stress")
  | some r =>
      let t := pyUpper r.qtype
      let pair : String × Option String :=
        if t = "PSS" then ("stress", r.pss_score_label)
        else if t = "PHQ" then ("depression", r.phq_score_label)
        else if t = "GAD" then ("anxiety", r.gad_score_label)
        else ("stress", some "moderate stress")
      (pair.1, pair.2.getD "moderate stress")

/-- The `severity_mapping` dict used when no `student_id` is available. -/
def severity_mapping : List (String × String) :=
  [ ("anxiety", "moderate anxiety"),
    ("depression", "moderate depression"),
    ("stress", "moderate stress") ]

structure RecState where
  condition : String
  severity : String
  workflow_stage : String
  deriving DecidableEq, Repr

/-- `transition_to_recommendations`: `conversation_condition` is
`state.get("condition", "stress")` and `student_id?` is
`state.get("student_id")` (Python truthiness: `None` and the empty string
are falsy).  With a truthy student id the assessment is always fetched
from the database; otherwise the conversation condition is mapped through
`severity_mapping`. -/
def transition_to_recommendations (db : List QRecord)
    (conversation_condition : Option String) (student_id? : Option String) :
    RecState :=
  let condition := conversation_condition.getD "stress"
  let sid := student_id?.getD ""
  if sid ≠ "" then
    let a := get_student_assessment_from_db db sid
    ⟨a.1, a.2, "recommendation"⟩
  else
    ⟨condition, (severity_mapping.lookup condition).getD "moderate stress",
      "recommendation"⟩

/-! ## Claim C6 -/

/-- Claim C6, counterexample: with a student id present but no persisted
record, the code discards the conversation-derived condition ("anxiety")
and returns the fixed default `("stress", "moderate stress")`; the claim
requires the condition-to-default-severity table to be applied to the
conversation condition, which would give `("anxiety", "moderate anxiety")`. -/
theorem transition_to_recommendations_drops_condition :
    (transition_to_recommendations [] (some "anxiety") (some "st1")).condition =
      "stress" ∧
    (transition_to_recommendations [] (some "anxiety") (some "st1")).severity =
      "moderate stress" ∧
    severity_mapping.lookup "anxiety" = some "moderate anxiety" ∧
    (transition_to_recommendations [] (some "anxiety") (some "st1")).severity ≠
      "moderate anxiety" ∧
    (transition_to_recommendations [] (some "anxiety") (some "st1")).condition ≠
      "anxiety" := by
  decide

/-- Claim C6 (amended): with a truthy student id,
`transition_to_recommendations` always uses the database assessment —
preferring the latest persisted questionnaire-derived label over the
conversation classification, and yielding the fixed default
`("stress", "moderate stress")` when no persisted record exists; the
condition-to-default-severity table is applied to the conversation-derived
condition only when no (or an empty) student id is provided. -/
theorem transition_to_recommendations_resolution :
    (∀ (db : List QRecord) (c : Option String),
      (transition_to_recommendations db c none).condition = c.getD "stress" ∧
      (transition_to_recommendations db c none).severity =
        (severity_mapping.lookup (c.getD "stress")).getD "moderate stress") ∧
    (∀ (db : List QRecord) (c1 c2 : Option String) (sid : String), sid ≠ "" →
      transition_to_recommendations db c1 (some sid) =
        transition_to_recommendations db c2 (some sid)) ∧
    (∀ (db : List QRecord) (c : Option String) (sid : String), sid ≠ "" →
      (transition_to_recommendations db c (some sid)).condition =
        (get_student_assessment_from_db db sid).1 ∧
      (transition_to_recommendations db c (some sid)).severity =
        (get_student_assessment_from_db db sid).2) ∧
    (∀ (db : List QRecord) (sid : String),
      db.filter (fun r => decide (r.student_id = sid)) = [] →
      get_student_assessment_from_db db sid = ("stress", "moderate stress")) ∧
    (∀ (db : List QRecord) (sid lab : String) (r : QRecord),
      latestRecord (db.filter (fun q => decide (q.student_id = sid))) = some r →
      pyUpper r.qtype = "PSS" → r.pss_score_label = some lab →
      get_student_assessment_from_db db sid = ("stress", lab)) := by
  refine ⟨?_, ?_, ?_, ?_, ?_⟩
  · intro db c
    constructor <;> simp [transition_to_recommendations]
  · intro db c1 c2 sid h
    simp [transition_to_recommendations, h]
  · intro db c sid h
    constructor <;> simp [transition_to_recommendations, h]
  · intro db sid h
    simp [get_student_assessment_from_db, h, latestRecord]
  · intro db sid lab r hlatest htype hlab
    simp [get_student_assessment_from_db, hlatest, htype, hlab]

/-- Claim C6, witness: with a student id and an empty database the
resolved assessment is the fixed default; with a persisted `PSS` row the
persisted label wins regardless of the conversation condition. -/
theorem transition_to_recommendations_resolution_witness :
    (transition_to_recommendations [] (some "depression") (some "st9")).severity =
      "moderate stress" ∧
    (transition_to_recommendations [] (some "anxiety") none).severity =
      "moderate anxiety" := by
  constructor
  · have h3 := transition_to_recommendations_resolution.2.2.1 []
      (some "depression") "st9" (by decide)
    have h4 := transition_to_recommendations_resolution.2.2.2.1 [] "st9" rfl
    rw [h3.2, h4]
  · have h1 := transition_to_recommendations_resolution.1 [] (some "anxiety")
    rw [h1.2]
    decide

/-! ## Appointments (`appointments` table and src/tools.py)

Dates and times are the ISO strings stored in the table; dateutil
parsing, rounding and the one-hour window arithmetic of the Python code
happen before the queries and are external, so the tool models take the
already-computed date/time strings as arguments. -/

structure Appointment where
  appointment_id : String
  appointment_date : String
  appointment_time : String
  status : String
  student_id : Option String
  deriving DecidableEq, Repr

/-- Insertion into a list sorted by `le` (model of the supabase
`order(...)` clauses). -/
def insertOrdered (le : α → α → Bool) (a : α) : List α → List α
  | [] => [a]
  | b :: t => if le a b then a :: b :: t else b :: insertOrdered le a t

/-- Sort by `le` (model of the supabase `order(...)` clauses). -/
def sortOrdered (le : α → α → Bool) : List α → List α
  | [] => []
  | a :: t => insertOrdered le a (sortOrdered le t)

/-- `order("appointment_date").order("appointment_time")`. -/
def slotLE (a b : Appointment) : Bool :=
  decide (a.appointment_date < b.appointment_date) ||
    (decide (a.appointment_date = b.appointment_date) &&
      !decide (b.appointment_time < a.appointment_time))

/-- The accumulation loop of `get_nearest_available_slot`: skip same-day
slots earlier than the target time, stop once `num_suggestions` slots are
collected (at least one, as the length test runs after the append). -/
def collectSlots (targetDate targetTime : String) (n : Nat) :
    List Appointment → List Appointment
  | [] => []
  | r :: rest =>
      if r.appointment_date = targetDate ∧ r.appointment_time < targetTime then
        collectSlots targetDate targetTime n rest
      else if n ≤ 1 then [r]
      else r :: collectSlots targetDate targetTime (n - 1) rest

/-- One "date at time (ID: id)" bullet of the options list. -/
def slotLine (s : Appointment) : String :=
  "\n  • " ++ s.appointment_date ++ " at " ++ s.appointment_time ++
    " (ID: " ++ s.appointment_id ++ ")"

/-- `get_nearest_available_slot`: query `status=Available`,
`appointment_date >= target`, ordered by date then time, limit 10, then
collect up to `num_suggestions` slots after the target time and format
the nearest plus the other options. -/
def get_nearest_available_slot (db : List Appointment)
    (targetDate targetTime : String) (num_suggestions : Nat) : String :=
  let result := (sortOrdered slotLE (db.filter (fun r =>
    decide (r.status = "Available") &&
      !decide (r.appointment_date < targetDate)))).take 10
  if result = [] then "No available slots found."
  else
    let available := collectSlots targetDate targetTime num_suggestions result
    match available with
    | [] => "No available slots found after the requested time."
    | nearest :: others =>
        let response := "📅 Nearest available slot: " ++
          nearest.appointment_date ++ " at " ++ nearest.appointment_time ++
          " (ID: " ++ nearest.appointment_id ++ ")"
        if others = [] then response
        else response ++ "\n\nOther available options:" ++
          String.join (others.map slotLine)

/-- `book_appointment`: conditional update — set `status=Booked` and the
student only on rows matching both `appointment_id` and
`status=Available`; `result.data` (the updated rows) decides the
message. -/
def book_appointment (db : List Appointment) (appointment_id student_id : String) :
    List Appointment × String :=
  let db1 := db.map (fun r =>
    if r.appointment_id = appointment_id ∧ r.status = "Available" then
      { r with status := "Booked", student_id := some student_id }
    else r)
  let matched := db.filter (fun r =>
    decide (r.appointment_id = appointment_id) && decide (r.status = "Available"))
  match matched.head? with
  | some appt =>
      (db1, "✓ Appointment confirmed! Booked for " ++ appt.appointment_date ++
        " at " ++ appt.appointment_time ++ ". Appointment ID: " ++ appointment_id)
  | none => (db1, "✗ Unable to book. This slot may no longer be available.")

/-- `check_conflicts`: Booked rows of the target date within the
(externally computed) one-hour window. -/
def check_conflicts (db : List Appointment)
    (targetDate startTime endTime : String) : String :=
  let rows := db.filter (fun r => decide (r.appointment_date = targetDate))
  if rows = [] then "No appointments found for that date."
  else
    let conflicts := (rows.filter (fun r =>
      !decide (r.appointment_time < startTime) &&
        !decide (endTime < r.appointment_time) &&
        decide (r.status = "Booked"))).map (fun r => r.appointment_time)
    if conflicts = [] then "✓ No conflicts found."
    else "⚠ Conflicts found at: " ++ String.intercalate ", " conflicts

/-- `cancel_appointment`: unconditionally reset the row with the given
id to `Available` with no student. -/
def cancel_appointment (db : List Appointment) (appointment_id : String) :
    List Appointment × String :=
  let db1 := db.map (fun r =>
    if r.appointment_id = appointment_id then
      { r with status := "Available", student_id := none }
    else r)
  let matched := db.filter (fun r => decide (r.appointment_id = appointment_id))
  if matched = [] then (db1, "✗ Appointment " ++ appointment_id ++ " not found.")
  else (db1, "✓ Appointment " ++ appointment_id ++ " cancelled successfully.")

/-- `update_appointment`: cancel the old appointment, then show available
slots (`nowDate`/`nowTime` stand for the external `datetime.now()`). -/
def update_appointment (db : List Appointment) (old_appointment_id : String)
    (nowDate nowTime : String) : List Appointment × String :=
  let c := cancel_appointment db old_appointment_id
  if !strIn "✓" c.2 then c
  else
    let slots := get_nearest_available_slot c.1 nowDate nowTime 3
    (c.1, "Previous appointment cancelled.\n\n" ++ slots ++
      "\n\nPlease confirm which slot you\x27d like to book.")

/-! ## `handle_appointment_interaction` (src/nodes.py)

The LLM decides which tool calls to run (external); the node then
dispatches exactly those calls, injecting the student id into book and
update calls, and sets `booking_confirmed` only in the `book_appointment`
branch. -/

inductive ToolCall where
  | getNearest (targetDate targetTime : String) (num_suggestions : Nat)
  | book (appointment_id : String)
  | checkConflicts (targetDate startTime endTime : String)
  | cancel (appointment_id : String)
  | update (old_appointment_id : String) (nowDate nowTime : String)
  deriving DecidableEq, Repr

/-- The dispatch over tool names in the node loop. -/
def runTool (db : List Appointment) (student_id : String) :
    ToolCall → List Appointment × String
  | .getNearest d t n => (db, get_nearest_available_slot db d t n)
  | .book aid => book_appointment db aid student_id
  | .checkConflicts d s e => (db, check_conflicts db d s e)
  | .cancel aid => cancel_appointment db aid
  | .update old d t => update_appointment db old d t

/-- Whether a call takes the `book_appointment` branch (the only branch
setting `booking_confirmed = True`). -/
def isBookCall : ToolCall → Bool
  | .book _ => true
  | _ => false

structure ToolRun where
  db : List Appointment
  results : List String
  confirmed : Bool
  deriving DecidableEq, Repr

/-- The `for tool_call in response.tool_calls` loop. -/
def runTools (student_id : String) : List ToolCall → List Appointment → ToolRun
  | [], db => ⟨db, [], false⟩
  | c :: rest, db =>
      let step := runTool db student_id c
      let next := runTools student_id rest step.1
      ⟨next.db, step.2 :: next.results, isBookCall c || next.confirmed⟩

structure HandleResult where
  recommendation : String
  appointment_confirmed : Bool
  tool_results : List String
  deriving DecidableEq, Repr

/-- `handle_appointment_interaction`: run the tool calls chosen by the
LLM (whose free-text content is the external `response_text`), join the
tool outputs into the recommendation, and report the confirmed flag. -/
def handle_appointment_interaction (db : List Appointment)
    (student_id response_text : String) (calls : List ToolCall) :
    List Appointment × HandleResult :=
  let run := runTools student_id calls db
  let full := if run.results = [] then response_text
    else response_text ++ "\n\n" ++ String.intercalate "\n\n" run.results
  (run.db, ⟨full, run.confirmed, run.results⟩)

/-- A slot already booked by another student. -/
def bookedSlot : Appointment :=
  { appointment_id := "a1", appointment_date := "2025-01-02"
    appointment_time := "09:00:00", status := "Booked", student_id := some "s0" }

lemma runTools_confirmed (sid : String) (calls : List ToolCall)
    (db : List Appointment) :
    (runTools sid calls db).confirmed = calls.any isBookCall := by
  induction calls generalizing db with
  | nil => rfl
  | cons c rest ih => simp [runTools, ih, List.any_cons]

lemma map_eq_self_of {α} {l : List α} {f : α → α} (h : ∀ x ∈ l, f x = x) :
    l.map f = l := by
  induction l with
  | nil => rfl
  | cons a t ih =>
    rw [List.map_cons, h a (List.mem_cons_self a t),
      ih (fun x hx => h x (List.mem_cons_of_mem a hx))]

/-! ## Claims C7, C8 and C10 -/

/-- Claim C7: the booking-confirmed flag is set only in the
`book_appointment` branch of the dispatch loop, so every invocation whose
tool calls contain no book call (for example a "show me other times" turn
that triggers only `get_nearest_available_slot`) returns the flag
unset. -/
theorem handle_appointment_flag_only_on_book (db : List Appointment)
    (sid text : String) (calls : List ToolCall)
    (h : ∀ c ∈ calls, isBookCall c = false) :
    (handle_appointment_interaction db sid text calls).2.appointment_confirmed =
      false := by
  have hany : calls.any isBookCall = false := by
    rw [List.any_eq_false]
    intro c hc
    simp [h c hc]
  simp [handle_appointment_interaction, runTools_confirmed, hany]

/-- Claim C7, witness: an invocation running only a slot lookup leaves
the confirmed flag unset. -/
theorem handle_appointment_flag_only_on_book_witness :
    (handle_appointment_interaction [] "s1" "resp"
      [ToolCall.getNearest "2025-01-01" "08:00:00" 3]).2.appointment_confirmed =
      false :=
  handle_appointment_flag_only_on_book [] "s1" "resp"
    [ToolCall.getNearest "2025-01-01" "08:00:00" 3] (by decide)

/-- Claim C8: `book_appointment` writes `Booked` and the student only to
a row still `Available` at write time; whenever no row with the given id
is `Available`, no appointment row changes and the user-visible
unable-to-book message is returned (no exception path is taken). -/
theorem book_appointment_conditional_write (db : List Appointment)
    (aid sid : String)
    (h : ∀ r ∈ db, r.appointment_id = aid → r.status ≠ "Available") :
    (book_appointment db aid sid).1 = db ∧
    (book_appointment db aid sid).2 =
      "✗ Unable to book. This slot may no longer be available." := by
  have hmatch : db.filter (fun r =>
      decide (r.appointment_id = aid) && decide (r.status = "Available")) = [] := by
    rw [List.filter_eq_nil_iff]
    intro r hr
    simp only [Bool.and_eq_true, decide_eq_true_eq, not_and]
    exact h r hr
  have hdb : db.map (fun r =>
      if r.appointment_id = aid ∧ r.status = "Available" then
        { r with status := "Booked", student_id := some sid }
      else r) = db := by
    apply map_eq_self_of
    intro r hr
    rw [if_neg]
    rintro ⟨h1, h2⟩
    exact h r hr h1 h2
  constructor <;> simp [book_appointment, hmatch, hdb]

/-- Claim C8, witness: booking an already-booked slot changes nothing and
reports the unable-to-book message. -/
theorem book_appointment_conditional_write_witness :
    (book_appointment [bookedSlot] "a1" "s1").1 = [bookedSlot] ∧
    (book_appointment [bookedSlot] "a1" "s1").2 =
      "✗ Unable to book. This slot may no longer be available." :=
  book_appointment_conditional_write [bookedSlot] "a1" "s1" (by decide)

/-- Claim C10: `handle_appointment_interaction` sets the confirmed flag
whenever a book call is dispatched, even when the conditional write fails
because the slot is no longer Available: booking the already-booked slot
leaves the appointment rows unchanged and the tool reports the
unable-to-book message, yet the returned flag is true. -/
theorem booking_flag_set_despite_failed_write :
    (∀ (db : List Appointment) (sid text : String) (calls : List ToolCall)
      (aid : String), ToolCall.book aid ∈ calls →
      (handle_appointment_interaction db sid text calls).2.appointment_confirmed =
        true) ∧
    ((handle_appointment_interaction [bookedSlot] "s1" "resp"
        [ToolCall.book "a1"]).2.appointment_confirmed = true ∧
      (handle_appointment_interaction [bookedSlot] "s1" "resp"
        [ToolCall.book "a1"]).1 = [bookedSlot] ∧
      (handle_appointment_interaction [bookedSlot] "s1" "resp"
        [ToolCall.book "a1"]).2.tool_results =
        ["✗ Unable to book. This slot may no longer be available."]) := by
  constructor
  · intro db sid text calls aid hmem
    have hany : calls.any isBookCall = true := List.any_eq_true.mpr ⟨_, hmem, rfl⟩
    simp [handle_appointment_interaction, runTools_confirmed, hany]
  · refine ⟨?_, ?_, ?_⟩ <;> decide

/-- Claim C10, witness: any invocation containing a book call returns the
confirmed flag true, even against an empty appointment table. -/
theorem booking_flag_set_despite_failed_write_witness :
    (handle_appointment_interaction [] "s1" "resp"
      [ToolCall.book "a2"]).2.appointment_confirmed = true :=
  booking_flag_set_despite_failed_write.1 [] "s1" "resp" [ToolCall.book "a2"]
    "a2" (List.mem_singleton.mpr rfl)
